import Mathlib

/-!
# Shallow embedding of the parkrun tourist suggester scraper

This file embeds the caching, staleness, populator and reconciliation logic of
src/scraper.py into Lean and proves properties about it.

Modelling conventions:
* An instant of time is a weekday in Europe/London (Python datetime.weekday
  convention, 0 = Monday .. 6 = Sunday) together with the UTC timestamp as an
  integer (e.g. epoch seconds).  Parsed ISO timestamps are embedded as the
  corresponding integer.
* Python dicts are embedded as association lists with insertion-order
  semantics: assignment updates an existing key in place and appends a fresh
  key at the end; iteration follows the list order.
* dict.get(k) returning None both for an absent key and for a key stored as
  null is embedded by flattening Option (Option V) to Option V (pyGet).
* Network fetches are embedded as oracles: either the already-parsed outcome
  of a request (for fetch_event_number, whose body catches every exception),
  or an explicit transport-or-response value (FetchSim) where exception
  propagation matters.
-/

/-- The current instant: Europe/London weekday (0 = Monday .. 6 = Sunday, as
Python datetime.weekday) and the UTC timestamp as an integer. -/
structure Instant where
  weekday : Nat
  utc : Int
deriving DecidableEq

/-- Association-list lookup embedding Python dict lookup (with dict
assignment keeping keys unique, the first hit is the only hit). -/
def lookupA {α : Type} : List (String × α) → String → Option α
  | [], _ => none
  | (k, v) :: rest, key => if k == key then some v else lookupA rest key

/-- Python dict assignment d[k] = v: update an existing key in place,
append a fresh key at the end. -/
def dictInsert {α : Type} : List (String × α) → String → α → List (String × α)
  | [], k, v => [(k, v)]
  | (k0, v0) :: rest, k, v =>
    if k0 == k then (k0, v) :: rest else (k0, v0) :: dictInsert rest k v

/-- Python d.get(k) on a dict whose stored values may themselves be null:
returns None both when the key is absent and when it is stored as null. -/
def pyGet {α : Type} (m : List (String × Option α)) (k : String) : Option α :=
  match lookupA m k with
  | none => none
  | some v => v

/-- The event-count cache record (event_number_cache.json):
a last_updated timestamp (absent or an ISO instant, embedded as Int)
and the slug → event-count mapping, where a count may be null. -/
structure EventCache where
  last_updated : Option Int
  event_numbers : List (String × Option Int)
deriving DecidableEq

/-- The completed-events cache record (completed_events_cache.json):
a last_updated timestamp and the parkrun-id → completed-slugs mapping.
A stored value may in principle be null, which the staleness check
treats as present. -/
structure CompletedCache where
  last_updated : Option Int
  completed : List (String × Option (List String))
deriving DecidableEq

/-- Embedding of should_refresh_cache(slugs, cache) from src/scraper.py,
with the ambient clock made explicit as now : Instant.
Returns true if any required slug maps to None via .get (absent or null);
otherwise on a Sunday it returns true when last_updated is absent or
strictly before now, and on any other weekday it returns false. -/
def should_refresh_cache (slugs : List String) (cache : EventCache)
    (now : Instant) : Bool :=
  if slugs.any (fun s => (pyGet cache.event_numbers s).isNone) then true
  else if now.weekday == 6 then
    match cache.last_updated with
    | none => true
    | some lu => decide (lu < now.utc)
  else false

/-- Embedding of should_refresh_completed_cache(parkrun_id, cache) from
src/scraper.py, with the clock explicit.  Returns true if the id is absent
from the completed mapping (membership only — a null value counts as
present); then true if last_updated is absent (before any weekday test);
then on a Sunday compares now against last_updated, else false. -/
def should_refresh_completed_cache (pid : String) (cache : CompletedCache)
    (now : Instant) : Bool :=
  if (lookupA cache.completed pid).isNone then true
  else
    match cache.last_updated with
    | none => true
    | some lu => if now.weekday == 6 then decide (lu < now.utc) else false

/-- Observable events of one populator run: each fetch of a slug (with the
result returned by fetch_event_number, None on failure) and each call to
save_cache with the cache state being persisted. -/
inductive Ev where
  | fetch (slug : String) (result : Option Int)
  | save (cache : EventCache)
deriving DecidableEq

/-- Embedding of update_event_numbers_cache(slugs, cache) from src/scraper.py.
fetch is the outcome of fetch_event_number for each slug (None on any
exception or parse failure — that function catches everything), and times
gives the UTC timestamp taken before the i-th save.  For each slug whose
.get value is None (absent or null) the populator fetches, writes the result
into the mapping, sets last_updated, and saves; other slugs are skipped.
The returned trace records the fetches and saves in order; the returned
event_numbers field of the returned cache is the Python return value. -/
def update_event_numbers_cache (fetch : String → Option Int)
    (times : Nat → Int) :
    List String → EventCache → Nat → EventCache × List Ev
  | [], cache, _ => (cache, [])
  | slug :: rest, cache, i =>
    if (pyGet cache.event_numbers slug).isNone then
      let number := fetch slug
      let c1 : EventCache :=
        { last_updated := some (times i),
          event_numbers := dictInsert cache.event_numbers slug number }
      let r := update_event_numbers_cache fetch times rest c1 (i + 1)
      (r.1, Ev.fetch slug number :: Ev.save c1 :: r.2)
    else
      update_event_numbers_cache fetch times rest cache i

/-- A populator trace consists of fetch/save pairs: every fetch is followed
immediately by a save whose cache stores exactly the fetched result for that
slug (null on failure) and carries a fresh last_updated timestamp. -/
def pairedOk : List Ev → Bool
  | [] => true
  | Ev.fetch s r :: Ev.save c :: rest =>
    (pyGet c.event_numbers s == r) && c.last_updated.isSome && pairedOk rest
  | _ => false

/-- Does the prefix of the second list match the first list element-wise?
(helper for substring containment). -/
def charsLead : List Char → List Char → Bool
  | [], _ => true
  | _ :: _, [] => false
  | c :: cs, d :: ds => c == d && charsLead cs ds

/-- Does hay contain needle as a contiguous substring?  Embeds the Python
test needle in hay on strings. -/
def charsContain (hay needle : List Char) : Bool :=
  match hay with
  | [] => charsLead needle []
  | _ :: t => charsLead needle hay || charsContain t needle

/-- Python substring containment: needle in hay. -/
def strContains (hay needle : String) : Bool :=
  charsContain hay.toList needle.toList

/-- Python str.lower, character by character (computable by reduction). -/
def pyLower (s : String) : String :=
  String.mk (s.data.map Char.toLower)

/-- Python str.startswith(p) (computable by reduction). -/
def pyStartsWith (s p : String) : Bool :=
  charsLead p.data s.data

/-- One entry of the canonical event feed (events.json features), reduced to
the fields filter_uk_cancellations and main read: the slug (eventname), the
declared url (possibly absent) and the display name (EventLongName). -/
structure Feature where
  eventname : String
  url : Option String
  longName : String
deriving DecidableEq

/-- Python set.add on the membership-only model of a set. -/
def addSet (s : List String) (x : String) : List String :=
  if s.contains x then s else s ++ [x]

/-- The first loop of filter_uk_cancellations: collect the UK slugs
(lowercased) and the lowercased-slug → display-name dict, keeping only
features whose url (defaulted from the slug) starts with the UK domain. -/
def buildUkMaps (features : List Feature) : List String × List (String × String) :=
  features.foldl
    (fun acc f =>
      let slug := f.eventname
      let url := f.url.getD ("https://www.parkrun.org.uk/" ++ slug ++ "/")
      if pyStartsWith url "https://www.parkrun.org.uk/" then
        (addSet acc.1 (pyLower slug), dictInsert acc.2 (pyLower slug) f.longName)
      else acc)
    ([], [])

/-- The dict comprehension building name_to_slug: lowercased display name →
slug, in slug_to_name iteration order (later duplicates overwrite). -/
def nameToSlug (s2n : List (String × String)) : List (String × String) :=
  s2n.foldl (fun acc p => dictInsert acc (pyLower p.2) p.1) []

/-- The substring fallback of filter_uk_cancellations: scan name_to_slug in
iteration order for bidirectional containment; the first match wins. -/
def firstContainMatch : List (String × String) → String → Option String
  | [], _ => none
  | (nameLower, slugTry) :: rest, cn =>
    if strContains nameLower cn || strContains cn nameLower then some slugTry
    else firstContainMatch rest cn

/-- The slug resolution of one announcement in filter_uk_cancellations:
exact match against name_to_slug first, else the substring scan. -/
def resolveSlug (n2s : List (String × String)) (cancelName : String) :
    Option String :=
  match lookupA n2s cancelName with
  | some s => some s
  | none => firstContainMatch n2s cancelName

/-- The per-announcement loop of filter_uk_cancellations, with the filtered
dict as an accumulator: a resolved slug is kept when it is in the UK slug
set, otherwise (and on no match) the announcement is dropped. -/
def cancelLoop (uk : List String) (n2s : List (String × String)) :
    List (String × String) → List (String × String) → List (String × String)
  | acc, [] => acc
  | acc, (cancelName, reason) :: rest =>
    match resolveSlug n2s cancelName with
    | some s =>
      if uk.contains s then cancelLoop uk n2s (dictInsert acc s reason) rest
      else cancelLoop uk n2s acc rest
    | none => cancelLoop uk n2s acc rest

/-- Embedding of filter_uk_cancellations(cancellations, features) from
src/scraper.py: cancellations is the announcement-name → reason dict (names
lowercased by fetch_saturday_cancellations), features the canonical feed. -/
def filter_uk_cancellations (cancellations : List (String × String))
    (features : List Feature) : List (String × String) :=
  let maps := buildUkMaps features
  cancelLoop maps.1 (nameToSlug maps.2) [] cancellations

/-- The file contents observable around one save_cache / save_completed_cache
call under process interruption.  The source opens the cache file with mode
"w" — which truncates it in place — and then json.dump writes the new
serialization, so the observable states are: the old contents (crash before
the call), the empty file (crash after open truncated but before the dump
completed), and the new contents (save finished).  There is no temporary
file and no rename. -/
def save_cache_interruption_states (oldContent newContent : String) :
    List String :=
  [oldContent, "", newContent]

/-- Python truthiness of the cached count used by the output line of main:
None and 0 are falsy. -/
def truthy : Option Int → Bool
  | none => false
  | some n => !(n == 0)

/-- Embedding of the per-line occurrence fragment of main
num_str = f", event #\x7bnum + 1 if num else \x27?\x27\x7d" if num else ""
from src/scraper.py: the whole fragment is suppressed when num is falsy
(null or 0), and the inner unknown-marker branch is kept as written even
though the outer conditional makes it unreachable. -/
def num_str (num : Option Int) : String :=
  if truthy num then
    ", event #" ++
      (if truthy num then toString (num.getD 0 + 1) else "?")
  else ""

/-- The outcome of one requests.get call: either the call raised (timeout,
connection error, ...) with a message, or it returned a response with a
status code and an already-parsed payload (the HTML/JSON parsing itself is
abstracted to its outcome, which is all the control flow reads). -/
inductive FetchSim (α : Type) where
  | exn (msg : String)
  | resp (status : Nat) (payload : α)
deriving DecidableEq

/-- Embedding of geocode_postcode: the resolver either finds coordinates or
not; failure raises ValueError, fatal to the run. Coordinates are abstracted
to an integer pair (their value is never inspected by the logic modelled
here). -/
def geocode_postcode (loc : Option (Int × Int)) : Except String (Int × Int) :=
  match loc with
  | none => Except.error "Could not geocode postcode."
  | some p => Except.ok p

/-- Embedding of fetch_event_data: requests.get may raise (propagates), and
raise_for_status raises on any status of 400 or above (propagates); the
payload is the parsed feature list. -/
def fetch_event_data (r : FetchSim (List Feature)) :
    Except String (List Feature) :=
  match r with
  | FetchSim.exn m => Except.error m
  | FetchSim.resp status payload =>
    if 400 ≤ status then Except.error ("HTTP " ++ toString status)
    else Except.ok payload

/-- Python .get(pid, []) then set(...) in get_completed_events: an absent key
yields the empty set.  (A stored null would make set(None) raise in the
original; it is flattened to the empty list here, and no claim depends on
that corner.) -/
def pyGetList (m : List (String × Option (List String))) (k : String) :
    List String :=
  match lookupA m k with
  | some (some l) => l
  | _ => []

/-- Embedding of get_completed_events(parkrun_id, cache): when the cache is
fresh, return the cached set without touching the network; otherwise fetch
the profile page — the requests.get call is NOT wrapped in try/except, so a
transport exception propagates and kills the run — and degrade to the empty
set on a non-200 status or when the expected page structure is missing
(payload none).  On success the cache is updated and saved.  The parsed rows
of the results table are abstracted to the payload. -/
def get_completed_events (pid : String) (cache : CompletedCache)
    (profile : FetchSim (Option (List String))) (now : Instant)
    (nowUtc : Int) : Except String (List String × CompletedCache) :=
  if should_refresh_completed_cache pid cache now then
    match profile with
    | FetchSim.exn m => Except.error m
    | FetchSim.resp status page =>
      if status ≠ 200 then Except.ok ([], cache)
      else
        match page with
        | none => Except.ok ([], cache)
        | some completed =>
          Except.ok (completed,
            { last_updated := some nowUtc,
              completed := dictInsert cache.completed pid (some completed) })
  else Except.ok (pyGetList cache.completed pid, cache)

/-- Embedding of fetch_saturday_cancellations: requests.get may raise
(propagates) and raise_for_status raises on status 400 or above (propagates);
a page without a recognisable Saturday section (payload none) degrades to the
empty dict. -/
def fetch_saturday_cancellations
    (r : FetchSim (Option (List (String × String)))) :
    Except String (List (String × String)) :=
  match r with
  | FetchSim.exn m => Except.error m
  | FetchSim.resp status payload =>
    if 400 ≤ status then Except.error ("HTTP " ++ toString status)
    else Except.ok (payload.getD [])

/-- The external-world oracles one run of main consumes, in fetch order.
withinRadius abstracts the geodesic distance-vs-radius test (floating
point); pid is the parkrun id the user entered. -/
structure Oracles where
  geocode : Option (Int × Int)
  eventsResp : FetchSim (List Feature)
  profileResp : FetchSim (Option (List String))
  cancelResp : FetchSim (Option (List (String × String)))
  fetchNum : String → Option Int
  times : Nat → Int
  withinRadius : Feature → Bool
  pid : String

/-- Embedding of main() from src/scraper.py, reduced to its fetch/error
control flow and the slug → count association it prints: geocode (fatal on
failure), completed events, event feed, cancellations — each match
propagates exactly the exceptions the original lets escape — then the junior
and radius filters, the staleness-gated populator run, and one (slug, count)
pair per remaining event.  Sorting by distance and the per-line formatting
(num_str) are orthogonal to the propagation behaviour and elided here. -/
def scraper_main (o : Oracles) (ccache : CompletedCache) (ecache : EventCache)
    (now : Instant) (nowUtc : Int) :
    Except String (List (String × Option Int)) :=
  match geocode_postcode o.geocode with
  | Except.error m => Except.error m
  | Except.ok _ =>
    match get_completed_events o.pid ccache o.profileResp now nowUtc with
    | Except.error m => Except.error m
    | Except.ok _ =>
      match fetch_event_data o.eventsResp with
      | Except.error m => Except.error m
      | Except.ok features =>
        match fetch_saturday_cancellations o.cancelResp with
        | Except.error m => Except.error m
        | Except.ok cancelsRaw =>
          let _cancellations := filter_uk_cancellations cancelsRaw features
          let nearby := features.filter
            (fun f => !(strContains f.eventname "junior") && o.withinRadius f)
          let slugs := nearby.map (fun f => f.eventname)
          let numbers :=
            if should_refresh_cache slugs ecache now then
              (update_event_numbers_cache o.fetchNum o.times slugs ecache 0).1.event_numbers
            else ecache.event_numbers
          Except.ok (slugs.map (fun s => (s, pyGet numbers s)))

/-- A benign world: every fetch succeeds, one UK feature in radius. -/
def okOracles : Oracles :=
  { geocode := some (51, 0),
    eventsResp := FetchSim.resp 200
      [⟨"catford", some "https://www.parkrun.org.uk/catford/", "Catford parkrun"⟩],
    profileResp := FetchSim.resp 200 (some ["catford"]),
    cancelResp := FetchSim.resp 200 (some []),
    fetchNum := fun _ => some 41,
    times := fun _ => 1000,
    withinRadius := fun _ => true,
    pid := "123" }

/-- An empty completed cache, as load_completed_cache returns it on a
missing file. -/
def emptyCompleted : CompletedCache :=
  { last_updated := none, completed := [] }

/-- An empty event-number cache, as load_cache returns it on a missing
file. -/
def emptyEvents : EventCache :=
  { last_updated := none, event_numbers := [] }

/-- A Monday instant used by the concrete runs. -/
def monday : Instant :=
  { weekday := 0, utc := 500 }

/-! ## Association-list lemmas -/

theorem lookupA_dictInsert_self {α : Type} (m : List (String × α)) (k : String)
    (v : α) : lookupA (dictInsert m k v) k = some v := by
  induction m with
  | nil => simp [dictInsert, lookupA]
  | cons p rest ih =>
    obtain ⟨k0, v0⟩ := p
    by_cases h : k0 = k
    · simp [dictInsert, h, lookupA]
    · simp [dictInsert, h, lookupA, ih]

theorem lookupA_dictInsert_ne {α : Type} (m : List (String × α))
    (k key : String) (v : α) (h : k ≠ key) :
    lookupA (dictInsert m k v) key = lookupA m key := by
  induction m with
  | nil => simp [dictInsert, lookupA, h]
  | cons p rest ih =>
    obtain ⟨k0, v0⟩ := p
    by_cases h0 : k0 = k
    · subst h0
      simp [dictInsert, lookupA, h]
    · simp [dictInsert, h0, lookupA, ih]

theorem pyGet_dictInsert_self {α : Type} (m : List (String × Option α))
    (k : String) (v : Option α) : pyGet (dictInsert m k v) k = v := by
  simp [pyGet, lookupA_dictInsert_self]

theorem pyGet_dictInsert_ne {α : Type} (m : List (String × Option α))
    (k key : String) (v : Option α) (h : k ≠ key) :
    pyGet (dictInsert m k v) key = pyGet m key := by
  simp [pyGet, lookupA_dictInsert_ne m k key v h]

/-! ## Populator lemmas -/

theorem populator_preserves_nonnull (fetch : String → Option Int)
    (times : Nat → Int) (slugs : List String) :
    ∀ (cache : EventCache) (i : Nat) (s : String) (v : Int),
      pyGet cache.event_numbers s = some v →
      pyGet (update_event_numbers_cache fetch times slugs cache i).1.event_numbers s
          = some v ∧
      ∀ r : Option Int,
        Ev.fetch s r ∉ (update_event_numbers_cache fetch times slugs cache i).2 := by
  induction slugs with
  | nil =>
    intro cache i s v h
    simp [update_event_numbers_cache, h]
  | cons slug rest ih =>
    intro cache i s v h
    by_cases hn : (pyGet cache.event_numbers slug).isNone
    · have hne : slug ≠ s := by
        intro he
        rw [he, h] at hn
        simp at hn
      have hpres : pyGet (dictInsert cache.event_numbers slug (fetch slug)) s
          = some v := by
        rw [pyGet_dictInsert_ne _ _ _ _ hne, h]
      have hrec := ih
        { last_updated := some (times i),
          event_numbers := dictInsert cache.event_numbers slug (fetch slug) }
        (i + 1) s v hpres
      simp only [update_event_numbers_cache, hn, if_true]
      refine ⟨hrec.1, ?_⟩
      intro r hr
      simp only [List.mem_cons] at hr
      rcases hr with h1 | h1 | h1
      · exact hne (by injection h1 with h1a h1b; exact h1a.symm)
      · exact Ev.noConfusion h1
      · exact hrec.2 r h1
    · simp only [update_event_numbers_cache, hn, if_false]
      exact ih cache i s v h

theorem populator_fetches_null (fetch : String → Option Int)
    (times : Nat → Int) (slugs : List String) :
    ∀ (cache : EventCache) (i : Nat) (s : String),
      s ∈ slugs → pyGet cache.event_numbers s = none →
      Ev.fetch s (fetch s) ∈ (update_event_numbers_cache fetch times slugs cache i).2 := by
  induction slugs with
  | nil =>
    intro cache i s hs _
    simp at hs
  | cons slug rest ih =>
    intro cache i s hs hnull
    rcases List.mem_cons.mp hs with he | hr
    · subst he
      simp only [update_event_numbers_cache, hnull, Option.isNone_none, if_true]
      exact List.mem_cons_self _ _
    · by_cases hn : (pyGet cache.event_numbers slug).isNone
      · by_cases heq : slug = s
        · subst heq
          simp only [update_event_numbers_cache, hn, if_true]
          exact List.mem_cons_self _ _
        · have hpres : pyGet (dictInsert cache.event_numbers slug (fetch slug)) s
              = none := by
            rw [pyGet_dictInsert_ne _ _ _ _ heq, hnull]
          have hrec := ih
            { last_updated := some (times i),
              event_numbers := dictInsert cache.event_numbers slug (fetch slug) }
            (i + 1) s hr hpres
          simp only [update_event_numbers_cache, hn, if_true]
          exact List.mem_cons_of_mem _ (List.mem_cons_of_mem _ hrec)
      · simp only [update_event_numbers_cache, hn, if_false]
        exact ih cache i s hr hnull

theorem populator_paired (fetch : String → Option Int) (times : Nat → Int)
    (slugs : List String) :
    ∀ (cache : EventCache) (i : Nat),
      pairedOk (update_event_numbers_cache fetch times slugs cache i).2 = true := by
  induction slugs with
  | nil =>
    intro cache i
    simp [update_event_numbers_cache, pairedOk]
  | cons slug rest ih =>
    intro cache i
    by_cases hn : (pyGet cache.event_numbers slug).isNone
    · simp only [update_event_numbers_cache, hn, if_true]
      simp only [pairedOk, Bool.and_eq_true]
      refine ⟨⟨?_, ?_⟩, ?_⟩
      · rw [pyGet_dictInsert_self]
        exact beq_self_eq_true _
      · rfl
      · exact ih _ (i + 1)
    · simp only [update_event_numbers_cache, hn, if_false]
      exact ih cache i

theorem populator_identity (fetch : String → Option Int) (times : Nat → Int)
    (slugs : List String) :
    ∀ (cache : EventCache) (i : Nat),
      (∀ s ∈ slugs, (pyGet cache.event_numbers s).isSome = true) →
      update_event_numbers_cache fetch times slugs cache i = (cache, []) := by
  induction slugs with
  | nil =>
    intro cache i _
    rfl
  | cons slug rest ih =>
    intro cache i h
    have hh := h slug (List.mem_cons_self _ _)
    have hn : (pyGet cache.event_numbers slug).isNone = false := by
      cases hp : pyGet cache.event_numbers slug
      · rw [hp] at hh
        simp at hh
      · simp
    simp only [update_event_numbers_cache, hn, if_false]
    exact ih cache i (fun s hs => h s (List.mem_cons_of_mem _ hs))

/-! ## Reconciler lemmas -/

theorem all_keys_dictInsert {α : Type} (P : String → Bool)
    (m : List (String × α)) (k : String) (v : α)
    (hm : m.all (fun p => P p.1) = true) (hk : P k = true) :
    (dictInsert m k v).all (fun p => P p.1) = true := by
  induction m with
  | nil => simp [dictInsert, hk]
  | cons p rest ih =>
    obtain ⟨k0, v0⟩ := p
    simp only [List.all_cons, Bool.and_eq_true] at hm
    by_cases h : k0 = k
    · simp [dictInsert, h, List.all_cons, hk, hm.2]
    · simp only [dictInsert, h]
      simp only [beq_iff_eq, h, if_false, List.all_cons, Bool.and_eq_true]
      exact ⟨hm.1, ih hm.2⟩

theorem cancelLoop_all_uk (uk : List String) (n2s : List (String × String)) :
    ∀ (cs acc : List (String × String)),
      acc.all (fun p => uk.contains p.1) = true →
      (cancelLoop uk n2s acc cs).all (fun p => uk.contains p.1) = true := by
  intro cs
  induction cs with
  | nil =>
    intro acc hacc
    simpa [cancelLoop] using hacc
  | cons entry rest ih =>
    intro acc hacc
    obtain ⟨cancelName, reason⟩ := entry
    simp only [cancelLoop]
    cases resolveSlug n2s cancelName with
    | none => exact ih acc hacc
    | some s =>
      by_cases hs : uk.contains s = true
      · simp only [hs, if_true]
        exact ih _ (all_keys_dictInsert _ acc s reason hacc hs)
      · simp only [hs, if_false]
        exact ih acc hacc

theorem filter_uk_cancellations_all_uk
    (cancellations : List (String × String)) (features : List Feature) :
    (filter_uk_cancellations cancellations features).all
      (fun p => (buildUkMaps features).1.contains p.1) = true := by
  exact cancelLoop_all_uk _ _ cancellations [] rfl

/-! ## Claim theorems -/

/-- C1 counterexample: in the completion cache, a required key that is
present but mapped to the null sentinel does NOT make the staleness check
return true — with a timestamp present and on a Monday it returns false,
refuting the claim that both caches treat a null-mapped key as stale
regardless of the current instant. -/
theorem C1_counterexample :
    lookupA ([("123", none)] : List (String × Option (List String))) "123"
        = some none ∧
    should_refresh_completed_cache "123"
      { last_updated := some 0, completed := [("123", none)] }
      { weekday := 0, utc := 100 } = false := by
  exact ⟨rfl, rfl⟩

/-- C1 (amended): the event-count staleness check returns true whenever any
required key is absent from the mapping or mapped to null, regardless of the
current instant; the completion-cache staleness check returns true whenever
the required person key is absent, regardless of the current instant — but a
present-and-null completion entry does not by itself force a refresh. -/
theorem C1_stale_on_missing_or_null (slugs : List String) (cache : EventCache)
    (now : Instant) (s pid : String) (ccache : CompletedCache)
    (hs : s ∈ slugs) (hnull : pyGet cache.event_numbers s = none)
    (habs : lookupA ccache.completed pid = none) :
    should_refresh_cache slugs cache now = true ∧
    should_refresh_completed_cache pid ccache now = true := by
  constructor
  · have hany : slugs.any (fun x => (pyGet cache.event_numbers x).isNone) = true :=
      List.any_eq_true.mpr ⟨s, hs, by simp [hnull]⟩
    simp [should_refresh_cache, hany]
  · simp [should_refresh_completed_cache, habs]

/-- C1 witness: the amended statement at a concrete null-mapped slug and a
concrete absent person id, on a Monday. -/
theorem C1_witness :
    should_refresh_cache ["a"]
      { last_updated := some 0, event_numbers := [("a", none)] }
      { weekday := 0, utc := 100 } = true ∧
    should_refresh_completed_cache "p"
      { last_updated := some 0, completed := [] }
      { weekday := 0, utc := 100 } = true :=
  C1_stale_on_missing_or_null ["a"]
    { last_updated := some 0, event_numbers := [("a", none)] }
    { weekday := 0, utc := 100 } "a" "p"
    { last_updated := some 0, completed := [] }
    (List.mem_cons_self _ _) rfl rfl

/-- C5 counterexample: with the person key present and non-null but the
last_updated of the completion cache absent, the check returns true on a Monday —
refuting the claim that, with all required keys non-null, both staleness
checks return false whenever the weekday is not the refresh day. -/
theorem C5_counterexample :
    (0 : Nat) ≠ 6 ∧
    should_refresh_completed_cache "123"
      { last_updated := none, completed := [("123", some ["x"])] }
      { weekday := 0, utc := 100 } = true := by
  exact ⟨by decide, rfl⟩

/-- C5 (amended): when every required key has a non-null value, the
event-count staleness check is true exactly when the weekday is Sunday and
(last_updated is absent or strictly before now); the completion-cache check
is true exactly when last_updated is absent — regardless of weekday — or the
weekday is Sunday and now is strictly after last_updated. -/
theorem C5_weekday_gate (slugs : List String) (cache : EventCache)
    (now : Instant) (pid : String) (ccache : CompletedCache) (l : List String)
    (hall : ∀ s ∈ slugs, (pyGet cache.event_numbers s).isSome = true)
    (hpid : lookupA ccache.completed pid = some (some l)) :
    (should_refresh_cache slugs cache now = true ↔
      now.weekday = 6 ∧ (cache.last_updated = none ∨
        ∃ lu, cache.last_updated = some lu ∧ lu < now.utc)) ∧
    (should_refresh_completed_cache pid ccache now = true ↔
      (ccache.last_updated = none ∨
        ∃ lu, ccache.last_updated = some lu ∧ now.weekday = 6 ∧ lu < now.utc)) := by
  have hany : slugs.any (fun x => (pyGet cache.event_numbers x).isNone) = false := by
    rw [List.any_eq_false]
    intro x hx
    have h := hall x hx
    cases hp : pyGet cache.event_numbers x
    · rw [hp] at h
      simp at h
    · simp
  constructor
  · by_cases hw : now.weekday = 6
    · cases hl : cache.last_updated with
      | none => simp [should_refresh_cache, hany, hw, hl]
      | some lu => simp [should_refresh_cache, hany, hw, hl]
    · simp [should_refresh_cache, hany, hw]
  · have hmem : (lookupA ccache.completed pid).isNone = false := by
      simp [hpid]
    cases hl : ccache.last_updated with
    | none => simp [should_refresh_completed_cache, hmem, hl]
    | some lu =>
      by_cases hw : now.weekday = 6
      · simp [should_refresh_completed_cache, hmem, hl, hw]
      · simp [should_refresh_completed_cache, hmem, hl, hw]

/-- C5 witness: the amended statement on a Sunday with fully populated
caches and concrete timestamps. -/
theorem C5_witness :
    (should_refresh_cache ["a"]
        { last_updated := some 5, event_numbers := [("a", some 3)] }
        { weekday := 6, utc := 10 } = true ↔
      (6 : Nat) = 6 ∧ ((some 5 : Option Int) = none ∨
        ∃ lu, (some 5 : Option Int) = some lu ∧ lu < 10)) ∧
    (should_refresh_completed_cache "p"
        { last_updated := some 5, completed := [("p", some ["x"])] }
        { weekday := 6, utc := 10 } = true ↔
      ((some 5 : Option Int) = none ∨
        ∃ lu, (some 5 : Option Int) = some lu ∧ (6 : Nat) = 6 ∧ lu < 10)) :=
  C5_weekday_gate ["a"]
    { last_updated := some 5, event_numbers := [("a", some 3)] }
    { weekday := 6, utc := 10 } "p"
    { last_updated := some 5, completed := [("p", some ["x"])] } ["x"]
    (by decide) rfl

/-- C2 counterexample: a key stored as null IS fetched again by the
populator — with "a" mapped to null, the run fetches "a" and overwrites the
null with the fetched value, refuting the claim that the skip rule treats a
null value as populated. -/
theorem C2_counterexample :
    update_event_numbers_cache (fun _ => some 5) (fun _ => 7) ["a"]
        { last_updated := some 0, event_numbers := [("a", none)] } 0 =
      ({ last_updated := some 7, event_numbers := [("a", some 5)] },
       [Ev.fetch "a" (some 5),
        Ev.save { last_updated := some 7, event_numbers := [("a", some 5)] }]) := by
  rfl

/-- C2 (amended): the populator skip rule treats a null value the same as
an absent one — it skips only keys with a non-null value — so a required key
currently mapped to null is fetched (again) whenever the populator runs;
both the staleness check and the populator react to null values. -/
theorem C2_null_is_refetched (fetch : String → Option Int) (times : Nat → Int)
    (slugs : List String) (cache : EventCache) (i : Nat) (s : String)
    (hs : s ∈ slugs) (hnull : pyGet cache.event_numbers s = none) :
    Ev.fetch s (fetch s) ∈
      (update_event_numbers_cache fetch times slugs cache i).2 :=
  populator_fetches_null fetch times slugs cache i s hs hnull

/-- C2 witness: the amended statement at a concrete null-mapped key. -/
theorem C2_witness :
    Ev.fetch "a" (some 5) ∈
      (update_event_numbers_cache (fun _ => some 5) (fun _ => 7) ["a"]
        { last_updated := some 0, event_numbers := [("a", none)] } 0).2 :=
  C2_null_is_refetched (fun _ => some 5) (fun _ => 7) ["a"]
    { last_updated := some 0, event_numbers := [("a", none)] } 0 "a"
    (List.mem_cons_self _ _) rfl

/-- C3 (confirmed): a key whose cached value is non-null keeps exactly that
value across any populator run and is never fetched — so a failed fetch can
set null only where no non-null value existed, and re-running the populator
touches only unpopulated keys (resumability). -/
theorem C3_nonnull_never_overwritten (fetch : String → Option Int)
    (times : Nat → Int) (slugs : List String) (cache : EventCache) (i : Nat)
    (s : String) (v : Int) (h : pyGet cache.event_numbers s = some v) :
    pyGet (update_event_numbers_cache fetch times slugs cache i).1.event_numbers s
        = some v ∧
    ∀ r : Option Int,
      Ev.fetch s r ∉ (update_event_numbers_cache fetch times slugs cache i).2 :=
  populator_preserves_nonnull fetch times slugs cache i s v h

/-- C3 witness: with "a" already populated and every fetch failing, "a"
keeps its value and is never fetched while "b" is processed. -/
theorem C3_witness :
    pyGet (update_event_numbers_cache (fun _ => none) (fun _ => 7) ["a", "b"]
        { last_updated := some 0, event_numbers := [("a", some 3)] } 0).1.event_numbers
        "a" = some 3 ∧
    ∀ r : Option Int,
      Ev.fetch "a" r ∉ (update_event_numbers_cache (fun _ => none) (fun _ => 7)
        ["a", "b"] { last_updated := some 0, event_numbers := [("a", some 3)] } 0).2 :=
  C3_nonnull_never_overwritten (fun _ => none) (fun _ => 7) ["a", "b"]
    { last_updated := some 0, event_numbers := [("a", some 3)] } 0 "a" 3 rfl

/-- C7 (confirmed): every fetch in a populator run — successful or failed —
is immediately followed by a save whose persisted cache stores exactly the
fetched result for that key (null on failure) and a fresh last_updated
timestamp (pairedOk), and a failure does not abort the run: every required
key that needs fetching is fetched, whatever the other fetches return. -/
theorem C7_persist_after_every_fetch (fetch : String → Option Int)
    (times : Nat → Int) (slugs : List String) (cache : EventCache) (i : Nat) :
    pairedOk (update_event_numbers_cache fetch times slugs cache i).2 = true ∧
    ∀ s ∈ slugs, pyGet cache.event_numbers s = none →
      Ev.fetch s (fetch s) ∈
        (update_event_numbers_cache fetch times slugs cache i).2 :=
  ⟨populator_paired fetch times slugs cache i,
   fun s hs hn => populator_fetches_null fetch times slugs cache i s hs hn⟩

/-- C7 witness: with every fetch failing, the trace still pairs each fetch
with an immediate save, and the second key is still fetched after the first
failure on the first key. -/
theorem C7_witness :
    pairedOk (update_event_numbers_cache (fun _ => none) (fun _ => 9) ["a", "b"]
        { last_updated := none, event_numbers := [] } 0).2 = true ∧
    Ev.fetch "b" none ∈
      (update_event_numbers_cache (fun _ => none) (fun _ => 9) ["a", "b"]
        { last_updated := none, event_numbers := [] } 0).2 :=
  ⟨(C7_persist_after_every_fetch (fun _ => none) (fun _ => 9) ["a", "b"]
      { last_updated := none, event_numbers := [] } 0).1,
   (C7_persist_after_every_fetch (fun _ => none) (fun _ => 9) ["a", "b"]
      { last_updated := none, event_numbers := [] } 0).2 "b" (by decide) rfl⟩

/-- C10 (confirmed): on a cache where every required key already has a
non-null value the populator is the identity — no fetch, no save, the values
and the last_updated timestamp unchanged, and the mapping returned as-is. -/
theorem C10_identity_when_populated (fetch : String → Option Int)
    (times : Nat → Int) (slugs : List String) (cache : EventCache) (i : Nat)
    (h : ∀ s ∈ slugs, (pyGet cache.event_numbers s).isSome = true) :
    update_event_numbers_cache fetch times slugs cache i = (cache, []) :=
  populator_identity fetch times slugs cache i h

/-- C10 witness: the identity run on a concrete fully populated cache. -/
theorem C10_witness :
    update_event_numbers_cache (fun _ => some 99) (fun _ => 7) ["a", "b"]
        { last_updated := some 4, event_numbers := [("a", some 3), ("b", some 8)] }
        0 =
      ({ last_updated := some 4,
         event_numbers := [("a", some 3), ("b", some 8)] }, []) :=
  C10_identity_when_populated (fun _ => some 99) (fun _ => 7) ["a", "b"]
    { last_updated := some 4, event_numbers := [("a", some 3), ("b", some 8)] } 0
    (by decide)

/-- The canonical regional set of the C4 example. -/
def featsUK : List Feature :=
  [{ eventname := "catford", url := some "https://www.parkrun.org.uk/catford/",
     longName := "Catford parkrun" },
   { eventname := "edinburgh", url := some "https://www.parkrun.org.uk/edinburgh/",
     longName := "Edinburgh parkrun" }]

/-- Two UK features whose display names both contain the announcement name
used to exercise first-match-wins in the substring scan. -/
def featsOrder : List Feature :=
  [{ eventname := "alpha", url := some "https://www.parkrun.org.uk/alpha/",
     longName := "park x" },
   { eventname := "beta", url := some "https://www.parkrun.org.uk/beta/",
     longName := "park xy" }]

set_option maxRecDepth 8192 in
/-- C4 (confirmed): the reconciler resolves each announcement by exact
lowercased-name match, else by the first bidirectional substring containment
in canonical order, drops unmatched announcements silently, and its output
only ever names identifiers of the regional set; on the example of the spec it
yields exactly the catford entry and drops york. -/
theorem C4_reconciler :
    filter_uk_cancellations [("catford", "muddy"), ("york", "race")] featsUK
        = [("catford", "muddy")] ∧
    filter_uk_cancellations [("catford parkrun", "exact")] featsUK
        = [("catford", "exact")] ∧
    filter_uk_cancellations [("york parkrun", "closed")]
        [{ eventname := "york", url := some "https://www.parkrun.us/york/",
           longName := "York parkrun" }] = [] ∧
    filter_uk_cancellations [("x", "r")] featsOrder = [("alpha", "r")] ∧
    ∀ (cs : List (String × String)) (fs : List Feature),
      (filter_uk_cancellations cs fs).all
        (fun p => (buildUkMaps fs).1.contains p.1) = true := by
  refine ⟨by rfl, by rfl, by rfl, by rfl, ?_⟩
  intro cs fs
  exact filter_uk_cancellations_all_uk cs fs

/-- C6 counterexample: the interruption states of a save include the empty
truncated file, which is neither the old record nor the new record —
refuting the claim that a crash mid-write always leaves one of the two full
records. -/
theorem C6_counterexample :
    "" ∈ save_cache_interruption_states "oldrecord" "newrecord" ∧
    "" ≠ "oldrecord" ∧ "" ≠ "newrecord" := by
  refine ⟨?_, ?_, ?_⟩ <;> decide

/-- C6 (amended): save_cache / save_completed_cache persist the full record
by truncating the cache file in place and rewriting it — an uninterrupted
save leaves exactly the new record, but there is no temporary-file-and-swap,
and an interruption between truncation and the completed write leaves a file
(the empty one) holding neither record in full. -/
theorem C6_saves_not_atomic (oldContent newContent : String) :
    (save_cache_interruption_states oldContent newContent).getLast?
        = some newContent ∧
    "" ∈ save_cache_interruption_states oldContent newContent := by
  constructor
  · rfl
  · simp [save_cache_interruption_states]

/-- C8 counterexample: a transport failure of the canonical feed fetch
terminates the whole run — scraper_main propagates the exception instead of
degrading — refuting the claim that only location-resolution failure is
fatal. -/
theorem C8_counterexample :
    scraper_main { okOracles with eventsResp := FetchSim.exn "connection error" }
      emptyCompleted emptyEvents monday 500 = Except.error "connection error" := by
  rfl

/-- C8 (amended): location-resolution failure is fatal, but so are canonical
feed fetch failures, cancellation page fetch failures, and transport errors
while refreshing the completion history; what does degrade gracefully is a
per-identifier event-count fetch failure (recorded as null, run completes)
and a non-200 completion-history response (empty completed set, run
completes). -/
theorem C8_propagation (m : String) :
    scraper_main { okOracles with geocode := none } emptyCompleted emptyEvents
        monday 500 = Except.error "Could not geocode postcode." ∧
    scraper_main { okOracles with eventsResp := FetchSim.exn m } emptyCompleted
        emptyEvents monday 500 = Except.error m ∧
    scraper_main { okOracles with cancelResp := FetchSim.exn m } emptyCompleted
        emptyEvents monday 500 = Except.error m ∧
    scraper_main { okOracles with profileResp := FetchSim.exn m } emptyCompleted
        emptyEvents monday 500 = Except.error m ∧
    scraper_main { okOracles with fetchNum := fun _ => none } emptyCompleted
        emptyEvents monday 500 = Except.ok [("catford", none)] ∧
    scraper_main { okOracles with profileResp := FetchSim.resp 500 none }
        emptyCompleted emptyEvents monday 500 = Except.ok [("catford", some 41)] := by
  exact ⟨rfl, rfl, rfl, rfl, rfl, rfl⟩

/-- C9: the emitted occurrence fragment is empty when the cached count is
null (and when it is zero) — the unknown-marker branch in the source is
unreachable — while a known non-zero count n is shown as n + 1. -/
theorem C9_no_unknown_marker :
    num_str none = "" ∧ num_str (some 0) = "" ∧
    num_str (some 499) = ", event #500" := by
  exact ⟨rfl, rfl, rfl⟩
